import Mathlib

/-
Verification development for the data-query repository (src/app.py and
src/openai_service.py).  The Python source is shallowly embedded: strings are
Lean strings viewed as lists of characters, the regular-expression denylist of
is_safe_code is embedded pattern by pattern as executable character-list
matchers, the local keyword translator is embedded as a fold over the literal
catalog, and the sandboxed executor is embedded with an explicit namespace and
an explicit dataset (heap) threaded through the call, with the effect of the
Python exec on the namespace and dataset supplied as an explicit parameter.
-/

set_option linter.unusedVariables false

namespace DataQuery

/- Section 1: character-level embedding of the regex denylist of
   is_safe_code (src/app.py lines 30-59).  All patterns are searched with
   re.search under re.IGNORECASE; we model this by lowering the text and
   trying the matcher at every suffix. -/

/-- Python regex whitespace class \s over ASCII. -/
def isPySpace (c : Char) : Bool :=
  c == ' ' || c == '\t' || c == '\n' || c == '\x0D' || c == '\x0B' || c == '\x0C'

/-- The literal pattern pat matches at the head of the text. -/
def litHere : List Char → List Char → Bool
  | [], _ => true
  | _ :: _, [] => false
  | p :: ps, c :: cs => p == c && litHere ps cs

/-- re.search: the matcher m succeeds at some suffix of the text. -/
def searchAny (m : List Char → Bool) : List Char → Bool
  | [] => m []
  | s@(_ :: rest) => m s || searchAny m rest

/-- Plain substring pattern (e.g. __import__, subprocess, pickle). -/
def matchSub (pat : List Char) (s : List Char) : Bool :=
  searchAny (litHere pat) s

/-- Remainder of a call pattern: \s*\( with backtracking, i.e. some number of
whitespace characters followed by an opening parenthesis. -/
def wsLParenAfter : List Char → Bool
  | [] => false
  | c :: rest => c == '(' || (isPySpace c && wsLParenAfter rest)

/-- Call pattern name\s*\( (e.g. open, exec-like, globals, dir, vars). -/
def matchCallPat (name : List Char) (s : List Char) : Bool :=
  searchAny (fun u => litHere name u && wsLParenAfter (u.drop name.length)) s

/-- The negative lookahead (?!pandas|numpy|datetime) succeeds at this text. -/
def notAllowedNext (u : List Char) : Bool :=
  !(litHere ("pandas".data) u || litHere ("numpy".data) u ||
    litHere ("datetime".data) u)

/-- Remainder of the import patterns: \s+(?!pandas|numpy|datetime) with
backtracking over the amount of whitespace consumed. -/
def wsPlusNotAllowed : List Char → Bool
  | [] => false
  | c :: rest => isPySpace c && (notAllowedNext rest || wsPlusNotAllowed rest)

/-- Pattern kw\s+(?!pandas|numpy|datetime) for kw being import or from. -/
def matchImportPat (kw : List Char) (s : List Char) : Bool :=
  searchAny (fun u => litHere kw u && wsPlusNotAllowed (u.drop kw.length)) s

/-- The ordered denylist of src/app.py lines 35-54: each entry keeps the
regex source text and its embedded matcher. -/
def dangerous_patterns : List (String × (List Char → Bool)) :=
  [ ("import\\s+(?!pandas|numpy|datetime)", matchImportPat ("import".data)),
    ("from\\s+(?!pandas|numpy|datetime)", matchImportPat ("from".data)),
    ("open\\s*\\(", matchCallPat ("open".data)),
    ("exec\\s*\\(", matchCallPat ("exec".data)),
    ("eval\\s*\\(", matchCallPat ("eval".data)),
    ("__import__", matchSub ("__import__".data)),
    ("getattr", matchSub ("getattr".data)),
    ("setattr", matchSub ("setattr".data)),
    ("delattr", matchSub ("delattr".data)),
    ("globals\\s*\\(", matchCallPat ("globals".data)),
    ("locals\\s*\\(", matchCallPat ("locals".data)),
    ("dir\\s*\\(", matchCallPat ("dir".data)),
    ("vars\\s*\\(", matchCallPat ("vars".data)),
    ("\\.system", matchSub (".system".data)),
    ("os\\.", matchSub ("os.".data)),
    ("subprocess", matchSub ("subprocess".data)),
    ("shutil", matchSub ("shutil".data)),
    ("pickle", matchSub ("pickle".data)) ]

/-- Case folding used to model re.IGNORECASE over ASCII text. -/
def loweredText (code : String) : List Char :=
  code.data.map Char.toLower

/-- is_safe_code (src/app.py lines 30-59): the loop returns False on the
first pattern that re.search finds in the code, True when none matches. -/
def is_safe_code (code : String) : Bool :=
  !(dangerous_patterns.any (fun p => p.2 (loweredText code)))

/-- Observer for the short-circuiting loop: the regex source of the first
pattern of the denylist that matches the code, if any. -/
def firstMatchedPattern (code : String) : Option String :=
  (dangerous_patterns.find? (fun p => p.2 (loweredText code))).map (fun p => p.1)

example : is_safe_code "result = df.head(10)" = true := by decide
example : is_safe_code "open(x)" = false := by decide
example : is_safe_code "import numpy, os" = true := by decide
example : is_safe_code "import os" = false := by decide
example : is_safe_code "RESULT = OPEN (x)" = false := by decide
example : firstMatchedPattern "open(x)" = some "open\\s*\\(" := by decide

/- Section 2: data model and the sandboxed executor
   (execute_pandas_code, src/app.py lines 61-111). -/

/-- A cell of the tabular dataset or of a series.  Floating point literals are
kept as their opaque textual form, which is all the pipeline observes. -/
inductive Cell where
  | cInt (n : Int)
  | cStr (s : String)
  | cBool (b : Bool)
  | cFloat (lit : String)
deriving DecidableEq

/-- The in-memory tabular dataset: ordered column names and row-major cells,
each row aligned with the column list. -/
structure DataFrame where
  columns : List String
  rows : List (List Cell)
deriving DecidableEq

/-- A Python value observable in the execution namespace.  The isinstance
dispatch of execute_pandas_code distinguishes DataFrame, Series, the primitive
scalars, and everything else; module objects and other opaque objects fall in
the last group. -/
inductive PandasValue where
  | dataFrame (columns : List String) (rows : List (List Cell))
  | series (name : Option String) (entries : List (Cell × Cell))
  | int (n : Int)
  | float (lit : String)
  | str (s : String)
  | bool (b : Bool)
  | module (name : String)
  | other (text : String)
deriving DecidableEq

/-- The execution namespace: the dict passed to exec, as an association
list from names to values. -/
abbrev NS := List (String × PandasValue)

/-- The JSON-safe result shapes built at src/app.py lines 85-106. -/
inductive Outcome where
  | table (data : List (List (String × Cell))) (columns : List String)
  | seriesOut (data : List (Cell × Cell)) (name : Option String)
  | scalar (v : Cell)
  | otherOut (text : String)
deriving DecidableEq

/-- str(result) for the values that reach the final else branch. -/
def pyStr : PandasValue → String
  | PandasValue.module nm => String.append (String.append "<module " nm) ">"
  | PandasValue.other s => s
  | PandasValue.dataFrame _ _ => "<dataframe>"
  | PandasValue.series _ _ => "<series>"
  | PandasValue.int n => toString n
  | PandasValue.float l => l
  | PandasValue.str s => s
  | PandasValue.bool b => toString b

/-- The isinstance classification of src/app.py lines 85-106:
DataFrame becomes a table via to_dict(records) plus columns.tolist(),
Series becomes its to_dict plus name, int/float/str/bool become scalars,
anything else becomes its text rendering. -/
def classify_result : PandasValue → Outcome
  | PandasValue.dataFrame cols rows =>
      Outcome.table (rows.map (fun r => cols.zip r)) cols
  | PandasValue.series nm entries => Outcome.seriesOut entries nm
  | PandasValue.int n => Outcome.scalar (Cell.cInt n)
  | PandasValue.float l => Outcome.scalar (Cell.cFloat l)
  | PandasValue.str s => Outcome.scalar (Cell.cStr s)
  | PandasValue.bool b => Outcome.scalar (Cell.cBool b)
  | v => Outcome.otherOut (pyStr v)

/-- The namespace literally built at src/app.py lines 71-75: exactly the
three bindings df, pd and datetime. -/
def initialNamespace (df : DataFrame) : NS :=
  [ ("df", PandasValue.dataFrame df.columns df.rows),
    ("pd", PandasValue.module "pandas"),
    ("datetime", PandasValue.module "datetime") ]

/-- A representative list of CPython builtin names; used only to state which
names the executed code can resolve through the builtins module. -/
def pythonBuiltinNames : List String :=
  [ "abs", "open", "len", "min", "max", "sum", "range", "type", "id",
    "print", "getattr", "setattr", "__import__", "int", "str", "float" ]

/-- Modelled CPython semantics of exec(code, g): when the globals dict g has
no key __builtins__, the interpreter inserts a binding of the builtins module
into g before running the code.  src/app.py line 78 passes the three-binding
namespace, so the injection fires. -/
def pythonExecGlobals (ns : NS) : NS :=
  if (List.lookup "__builtins__" ns).isSome then ns
  else ns ++ [("__builtins__", PandasValue.module "builtins")]

/-- Modelled CPython name resolution inside exec: a name resolves when bound
in the globals dict, or through the builtins module when __builtins__ is
present in the globals dict. -/
def resolvableName (ns : NS) (x : String) : Bool :=
  (List.lookup x ns).isSome ||
  ((List.lookup "__builtins__" ns).isSome && pythonBuiltinNames.contains x)

/-- The effect of exec(code, namespace) on the namespace and on the dataset
object: either the code runs to completion, leaving a final namespace and a
final dataset state, or it raises with a message.  The dataset state is
threaded explicitly because the namespace binds the dataset by reference and
executed code may mutate it in place. -/
inductive ExecRun where
  | ok (ns : NS) (dfAfter : DataFrame)
  | raises (msg : String) (dfAfter : DataFrame)
deriving DecidableEq

/-- The dataset state left by an exec effect. -/
def dfAfterOf : ExecRun → DataFrame
  | ExecRun.ok _ d => d
  | ExecRun.raises _ d => d

/-- execute_pandas_code (src/app.py lines 61-111).  The run parameter is the
semantics of exec on the given code: it receives the globals dict (after the
builtins injection) and the current dataset.  The pair of the outcome and the
error message mirrors the Python return value; the final dataset state is
returned alongside to make mutation observable. -/
def execute_pandas_code (code : String) (df : DataFrame)
    (run : NS → DataFrame → ExecRun) :
    (Option Outcome × Option String) × DataFrame :=
  if is_safe_code code = false then
    ((none, some "Generated code contains unsafe operations"), df)
  else
    match run (pythonExecGlobals (initialNamespace df)) df with
    | ExecRun.raises msg dfA =>
        ((none, some (String.append "Error executing code: " msg)), dfA)
    | ExecRun.ok ns dfA =>
        match List.lookup "result" ns with
        | some v => ((some (classify_result v), none), dfA)
        | none =>
            ((none, some "Generated code did not produce a \x27result\x27 variable"), dfA)

/- Section 3: the local pattern translator and the code generation
   coordinator (src/openai_service.py). -/

/-- One catalog entry of parse_query_locally: required keywords, the pandas
expression, and its description. -/
structure QPattern where
  keywords : List String
  code : String
  description : String
deriving DecidableEq

/-- The literal catalog of src/openai_service.py lines 19-80, in order. -/
def patterns : List QPattern :=
  [ ⟨["sales", "by", "region"],
     "result = df.groupby(\"region\")[\"sales\"].sum().reset_index()",
     "Total sales by region"⟩,
    ⟨["sales", "month", "by"],
     "result = df.groupby(df[\"date\"].dt.to_period(\"M\"))[\"sales\"].sum().reset_index()\nresult[\"date\"] = result[\"date\"].astype(str)",
     "Sales by month"⟩,
    ⟨["average", "sales", "region"],
     "result = df.groupby(\"region\")[\"sales\"].mean().reset_index()",
     "Average sales by region"⟩,
    ⟨["top", "highest", "sales"],
     "result = df.nlargest(10, \"sales\")[[\"date\", \"region\", \"sales\"]]",
     "Top 10 highest sales"⟩,
    ⟨["sales", "july"],
     "result = df[df[\"date\"].dt.month == 7]",
     "Sales in July"⟩,
    ⟨["sales", "2023"],
     "result = df[df[\"date\"].dt.year == 2023]",
     "Sales in 2023"⟩,
    ⟨["total", "sales"],
     "result = df[\"sales\"].sum()",
     "Total sales"⟩,
    ⟨["trend", "sales"],
     "result = df.groupby(df[\"date\"].dt.to_period(\"M\"))[\"sales\"].sum().reset_index()\nresult[\"date\"] = result[\"date\"].astype(str)",
     "Sales trends over time"⟩,
    ⟨["count", "records"],
     "result = len(df)",
     "Total number of records"⟩,
    ⟨["average", "daily", "sales"],
     "result = df.groupby(\"date\")[\"sales\"].sum().mean()",
     "Average daily sales"⟩ ]

/-- Python str.strip over ASCII whitespace. -/
def pyStrip (l : List Char) : List Char :=
  ((l.dropWhile isPySpace).reverse.dropWhile isPySpace).reverse

/-- query.lower().strip() of src/openai_service.py line 16. -/
def queryLower (q : String) : List Char :=
  pyStrip (q.data.map Char.toLower)

/-- matches = sum(1 for keyword in keywords if keyword in query_lower). -/
def cntOf (ql : List Char) (p : QPattern) : Nat :=
  p.keywords.countP (fun k => matchSub k.data ql)

/-- One iteration of the best-match loop (lines 86-90): update the running
best exactly when this entry's count strictly exceeds the running maximum
and is positive. -/
def selStep (ql : List Char) (acc : Option QPattern × Nat) (p : QPattern) :
    Option QPattern × Nat :=
  if cntOf ql p > acc.2 ∧ cntOf ql p > 0 then (some p, cntOf ql p) else acc

/-- The catalog entry fully matches: every keyword occurs in the query. -/
def fullKeywordMatch (p : QPattern) (ql : List Char) : Bool :=
  p.keywords.all (fun k => matchSub k.data ql)

/-- parse_query_locally (src/openai_service.py lines 11-96): score each
catalog entry, return the best entry's code, or the default preview
expression when nothing matched. -/
def parse_query_locally (query : String) (columns : List String) :
    String × Option String :=
  match (patterns.foldl (selStep (queryLower query)) (none, 0)).1 with
  | some p => (p.code, none)
  | none => ("result = df.head(10)", none)

/-- The observable ways the remote OpenAI call of generate_pandas_code can
go: the API call raises, the response content is None, json.loads raises on
the content, the parsed object has no code field, or it has one. -/
inductive RemoteBehavior where
  | transportError
  | contentEmpty
  | malformedJSON
  | missingCodeField
  | codeField (code : String)
deriving DecidableEq

/-- generate_pandas_code (src/openai_service.py lines 98-164).  The
configured flag is the truthiness of the openai client and the API key; the
remote parameter is what the one outbound call does.  Exceptions raised
inside the try block (the API call raising, json.loads raising) are caught
and fall back to the local parser; the two explicit early returns for empty
content and for a missing code field do not fall back. -/
def generate_pandas_code (query : String) (columns : List String)
    (configured : Bool) (remote : RemoteBehavior) :
    Option String × Option String :=
  if configured = false then
    let r := parse_query_locally query columns
    (some r.1, r.2)
  else
    match remote with
    | RemoteBehavior.codeField c => (some c, none)
    | RemoteBehavior.transportError =>
        let r := parse_query_locally query columns
        (some r.1, r.2)
    | RemoteBehavior.malformedJSON =>
        let r := parse_query_locally query columns
        (some r.1, r.2)
    | RemoteBehavior.contentEmpty =>
        (none, some "OpenAI response content is empty")
    | RemoteBehavior.missingCodeField =>
        (none, some "OpenAI response does not contain \x27code\x27 field")

example : parse_query_locally "total sales by region" [] =
    ("result = df.groupby(\"region\")[\"sales\"].sum().reset_index()", none) := by decide
example : parse_query_locally "hello" [] = ("result = df.head(10)", none) := by decide
example : parse_query_locally "total sales by" [] =
    ("result = df.groupby(\"region\")[\"sales\"].sum().reset_index()", none) := by decide

/- Section 4: concrete fixtures — the two-row sales dataset of the spec's
   end-to-end scenarios and the exec semantics of a few concrete programs. -/

/-- Dataset with columns date, region, sales and the two rows
(2023-07-01, East, 100) and (2023-01-15, West, 50). -/
def df0 : DataFrame :=
  ⟨["date", "region", "sales"],
   [[Cell.cStr "2023-07-01", Cell.cStr "East", Cell.cInt 100],
    [Cell.cStr "2023-01-15", Cell.cStr "West", Cell.cInt 50]]⟩

/-- Exec semantics of a program with no effect at all. -/
def idRun (ns : NS) (d : DataFrame) : ExecRun := ExecRun.ok ns d

/-- Modelled exec semantics of the program  result = abs(-5)  : the builtin
abs resolves through the injected __builtins__ binding and yields the Python
int 5, bound to result. -/
def absRun (ns : NS) (d : DataFrame) : ExecRun :=
  ExecRun.ok (ns ++ [("result", PandasValue.int 5)]) d

/-- Modelled exec semantics of the program  result = df  : binds result to
the dataset value, leaving the dataset unchanged. -/
def dfIdentityRun (ns : NS) (d : DataFrame) : ExecRun :=
  ExecRun.ok (ns ++ [("result", PandasValue.dataFrame d.columns d.rows)]) d

/-- Modelled exec semantics of the program  x = 1  : binds only x, no
binding named result is created. -/
def assignXRun (ns : NS) (d : DataFrame) : ExecRun :=
  ExecRun.ok (ns ++ [("x", PandasValue.int 1)]) d

/-- Modelled pandas semantics of the program  result = df.head(10)  : the
first ten rows with the same columns, dataset unchanged. -/
def headRun (ns : NS) (d : DataFrame) : ExecRun :=
  ExecRun.ok (ns ++ [("result", PandasValue.dataFrame d.columns (d.rows.take 10))]) d

/-- Modelled exec semantics of the statement  import numpy, os  : both
modules are imported and bound; no result binding is created. -/
def importOsRun (ns : NS) (d : DataFrame) : ExecRun :=
  ExecRun.ok
    (ns ++ [("numpy", PandasValue.module "numpy"), ("os", PandasValue.module "os")]) d

/-- A two-statement program that mutates the dataset in place and then
returns it. -/
def mutProg : String := "df[\"sales\"] = df[\"sales\"] + 1\nresult = df"

/-- Adds one to an integer cell. -/
def bumpCell : Cell → Cell
  | Cell.cInt n => Cell.cInt (n + 1)
  | c => c

/-- Modelled pandas semantics of  df[\x22sales\x22] = df[\x22sales\x22] + 1  :
every cell of the sales column is incremented, in place. -/
def bumpSales (d : DataFrame) : DataFrame :=
  ⟨d.columns,
   d.rows.map (fun r =>
     (d.columns.zip r).map (fun pc => if pc.1 == "sales" then bumpCell pc.2 else pc.2))⟩

/-- Modelled exec semantics of mutProg: the dataset object bound as df is
mutated in place, and result is bound to that same mutated dataset. -/
def mutRun (ns : NS) (d : DataFrame) : ExecRun :=
  ExecRun.ok
    (ns ++ [("result", PandasValue.dataFrame (bumpSales d).columns (bumpSales d).rows)])
    (bumpSales d)

/- Section 5: helper lemmas. -/

/-- Rejected code makes execute_pandas_code stop at the validation gate with
the fixed message, for every exec behavior, and the dataset is untouched. -/
theorem execute_unsafe_gate (code : String) (h : is_safe_code code = false)
    (df : DataFrame) (run : NS → DataFrame → ExecRun) :
    execute_pandas_code code df run =
      ((none, some "Generated code contains unsafe operations"), df) := by
  unfold execute_pandas_code
  rw [if_pos h]

/-- litHere is preserved by mapping a character function over both the
pattern and the text. -/
theorem litHere_map (f : Char → Char) :
    ∀ (pat u : List Char), litHere pat u = true →
      litHere (pat.map f) (u.map f) = true := by
  intro pat
  induction pat with
  | nil => intro u _; rfl
  | cons p ps ih =>
    intro u hu
    cases u with
    | nil => exact absurd hu (by simp [litHere])
    | cons c cs =>
      simp only [litHere, Bool.and_eq_true, beq_iff_eq] at hu
      simp only [List.map, litHere, Bool.and_eq_true, beq_iff_eq]
      exact ⟨congrArg f hu.1, ih cs hu.2⟩

/-- matchSub is preserved by mapping a character function over both the
pattern and the text. -/
theorem matchSub_map (f : Char → Char) (pat : List Char) :
    ∀ s : List Char, matchSub pat s = true →
      matchSub (pat.map f) (s.map f) = true := by
  intro s
  induction s with
  | nil =>
    intro h
    cases pat with
    | nil => rfl
    | cons p ps => exact absurd h (by simp [matchSub, searchAny, litHere])
  | cons c cs ih =>
    intro h
    simp only [matchSub, searchAny, Bool.or_eq_true] at h
    rcases h with h | h
    · simp only [List.map, matchSub, searchAny, Bool.or_eq_true]
      exact Or.inl (litHere_map f pat (c :: cs) h)
    · simp only [List.map, matchSub, searchAny, Bool.or_eq_true]
      exact Or.inr (ih h)

/-- A match of a concatenated literal splits into a match of the first part
and a match of the second part after dropping its length. -/
theorem litHere_append (xs ys : List Char) :
    ∀ u : List Char, litHere (xs ++ ys) u = true →
      litHere xs u = true ∧ litHere ys (u.drop xs.length) = true := by
  induction xs with
  | nil => intro u h; exact ⟨rfl, h⟩
  | cons x xt ih =>
    intro u h
    cases u with
    | nil => exact absurd h (by simp [litHere])
    | cons c cs =>
      simp only [List.cons_append, litHere, Bool.and_eq_true] at h
      have hr := ih cs h.2
      refine ⟨?_, ?_⟩
      · simp only [litHere, Bool.and_eq_true]
        exact ⟨h.1, hr.1⟩
      · simpa using hr.2

/-- A literal opening parenthesis at the head satisfies the \s*\( matcher. -/
theorem wsLParenAfter_of_lparen :
    ∀ v : List Char, litHere [Char.ofNat 40] v = true → wsLParenAfter v = true := by
  intro v h
  cases v with
  | nil => exact absurd h (by simp [litHere])
  | cons c cs =>
    simp only [litHere, Bool.and_eq_true, beq_iff_eq] at h
    simp only [wsLParenAfter, Bool.or_eq_true]
    exact Or.inl (by simp [h.1.symm])

/-- searchAny is monotone in the matcher. -/
theorem searchAny_mono (m1 m2 : List Char → Bool)
    (hm : ∀ u, m1 u = true → m2 u = true) :
    ∀ s : List Char, searchAny m1 s = true → searchAny m2 s = true := by
  intro s
  induction s with
  | nil => exact hm []
  | cons c cs ih =>
    intro h
    simp only [searchAny, Bool.or_eq_true] at h ⊢
    rcases h with h | h
    · exact Or.inl (hm _ h)
    · exact Or.inr (ih h)

/-- Any code containing the literal text open( is caught by the third
denylist pattern and rejected by the validator. -/
theorem is_safe_code_false_of_openParen (code : String)
    (h : matchSub ("open(".data) code.data = true) :
    is_safe_code code = false := by
  have hlow : matchSub ("open(".data) (loweredText code) = true := by
    have := matchSub_map Char.toLower ("open(".data) code.data h
    have heq : ("open(".data).map Char.toLower = "open(".data := by decide
    rw [heq] at this
    exact this
  have hcall : matchCallPat ("open".data) (loweredText code) = true := by
    refine searchAny_mono _ _ ?_ _ hlow
    intro u hu
    have hsplit : ("open(".data) = ("open".data) ++ [Char.ofNat 40] := by decide
    rw [hsplit] at hu
    have hparts := litHere_append ("open".data) [Char.ofNat 40] u hu
    have hlen : ("open".data).length = 4 := by decide
    simp only [Bool.and_eq_true]
    refine ⟨hparts.1, ?_⟩
    rw [hlen]
    exact wsLParenAfter_of_lparen _ (by rw [← hlen]; exact hparts.2)
  have hany : dangerous_patterns.any (fun p => p.2 (loweredText code)) = true := by
    rw [List.any_eq_true]
    refine ⟨("open\\s*\\(", matchCallPat ("open".data)), ?_, hcall⟩
    simp [dangerous_patterns]
  unfold is_safe_code
  rw [hany]
  rfl

/-- The best-match loop leaves the accumulator unchanged over a block of
entries none of which beats the running maximum. -/
theorem foldl_selStep_const (ql : List Char) :
    ∀ (l : List QPattern) (b : Option QPattern) (m : Nat),
      (∀ p ∈ l, cntOf ql p ≤ m) →
      l.foldl (selStep ql) (b, m) = (b, m) := by
  intro l
  induction l with
  | nil => intro b m _; rfl
  | cons p t ih =>
    intro b m h
    have hp : cntOf ql p ≤ m := h p (List.mem_cons_self p t)
    have hstep : selStep ql (b, m) p = (b, m) := by
      unfold selStep
      rw [if_neg]
      intro hc
      exact absurd hc.1 (by omega)
    rw [List.foldl_cons, hstep]
    exact ih b m (fun q hq => h q (List.mem_cons_of_mem p hq))

/-- Over a block of entries whose counts all stay below c, the running
maximum stays below c. -/
theorem foldl_selStep_lt (ql : List Char) (c : Nat) :
    ∀ (l : List QPattern) (b : Option QPattern) (m : Nat),
      (∀ p ∈ l, cntOf ql p < c) → m < c →
      (l.foldl (selStep ql) (b, m)).2 < c := by
  intro l
  induction l with
  | nil => intro b m _ hm; exact hm
  | cons p t ih =>
    intro b m h hm
    have hp : cntOf ql p < c := h p (List.mem_cons_self p t)
    have ht : ∀ q ∈ t, cntOf ql q < c := fun q hq => h q (List.mem_cons_of_mem p hq)
    rw [List.foldl_cons]
    unfold selStep
    by_cases hc : cntOf ql p > m ∧ cntOf ql p > 0
    · rw [if_pos hc]
      exact ih (some p) (cntOf ql p) ht hp
    · rw [if_neg hc]
      exact ih b m ht hm

/-- The selected entry is the initial one or a member of the scanned list. -/
theorem foldl_selStep_mem (ql : List Char) :
    ∀ (l : List QPattern) (acc : Option QPattern × Nat),
      (l.foldl (selStep ql) acc).1 = acc.1 ∨
      ∃ p ∈ l, (l.foldl (selStep ql) acc).1 = some p := by
  intro l
  induction l with
  | nil => intro acc; exact Or.inl rfl
  | cons p t ih =>
    intro acc
    rw [List.foldl_cons]
    have hstep : selStep ql acc p = (some p, cntOf ql p) ∨ selStep ql acc p = acc := by
      unfold selStep
      by_cases hc : cntOf ql p > acc.2 ∧ cntOf ql p > 0
      · exact Or.inl (if_pos hc)
      · exact Or.inr (if_neg hc)
    rcases hstep with hs | hs <;> rw [hs]
    · rcases ih (some p, cntOf ql p) with h | ⟨q, hq, h⟩
      · exact Or.inr ⟨p, List.mem_cons_self p t, h⟩
      · exact Or.inr ⟨q, List.mem_cons_of_mem p hq, h⟩
    · rcases ih acc with h | ⟨q, hq, h⟩
      · exact Or.inl h
      · exact Or.inr ⟨q, List.mem_cons_of_mem p hq, h⟩

/-- The main selection lemma: when the catalog splits as l1 ++ e :: l2 with
every entry of l1 scoring strictly below e, e scoring positively, and every
entry of l2 scoring at most e, the loop selects e. -/
theorem foldl_selStep_picks (ql : List Char) (l1 l2 : List QPattern) (e : QPattern)
    (h1 : ∀ p ∈ l1, cntOf ql p < cntOf ql e)
    (he : 0 < cntOf ql e)
    (h2 : ∀ p ∈ l2, cntOf ql p ≤ cntOf ql e) :
    ((l1 ++ e :: l2).foldl (selStep ql) (none, 0)).1 = some e := by
  rw [List.foldl_append]
  have hs1 : ((l1.foldl (selStep ql) (none, 0))).2 < cntOf ql e :=
    foldl_selStep_lt ql (cntOf ql e) l1 none 0 h1 he
  rw [List.foldl_cons]
  have hstep : selStep ql (l1.foldl (selStep ql) (none, 0)) e =
      (some e, cntOf ql e) := by
    unfold selStep
    rw [if_pos ⟨hs1, he⟩]
  rw [hstep, foldl_selStep_const ql l2 (some e) (cntOf ql e) h2]

/-- The error component of parse_query_locally is always none. -/
theorem parse_query_locally_snd (q : String) (cols : List String) :
    (parse_query_locally q cols).2 = none := by
  unfold parse_query_locally
  rcases hm : (patterns.foldl (selStep (queryLower q)) (none, 0)).1 with _ | p <;>
    rfl

/- Section 6: the claims. -/

/-- C1: the claim states that the executor context resolves exactly the three
names df, pd, datetime and no host builtin.  The namespace literal of
src/app.py lines 71-75 does bind exactly those three names, but exec injects
the builtins module into a globals dict lacking __builtins__, so every host
builtin (open, abs, __import__, ...) is resolvable; the validator even
accepts  result = abs(-5)  and the pipeline executes it successfully through
the host builtin abs. -/
theorem C1_builtins_leak :
    (initialNamespace df0).map Prod.fst = ["df", "pd", "datetime"] ∧
    "open" ∉ ["df", "pd", "datetime"] ∧ "abs" ∉ ["df", "pd", "datetime"] ∧
    is_safe_code "result = abs(-5)" = true ∧
    resolvableName (pythonExecGlobals (initialNamespace df0)) "open" = true ∧
    resolvableName (pythonExecGlobals (initialNamespace df0)) "abs" = true ∧
    execute_pandas_code "result = abs(-5)" df0 absRun =
      ((some (Outcome.scalar (Cell.cInt 5)), none), df0) := by decide

/-- C2 (amended): is_safe_code rejects a code string iff some pattern of the
fixed ordered case-insensitive denylist matches it; the loop short-circuits
at the first matching pattern (find? order); but the surfaced rejection
reason is the fixed executor message, independent of the pattern. -/
theorem C2_reject_iff_pattern (code : String) :
    (is_safe_code code = false ↔
      ∃ pr ∈ dangerous_patterns, pr.2 (loweredText code) = true) ∧
    (is_safe_code code = false ↔ (firstMatchedPattern code).isSome = true) ∧
    (is_safe_code code = false →
      ∀ (df : DataFrame) (run : NS → DataFrame → ExecRun),
        execute_pandas_code code df run =
          ((none, some "Generated code contains unsafe operations"), df)) := by
  refine ⟨?_, ?_, fun hf df run => execute_unsafe_gate code hf df run⟩
  · unfold is_safe_code
    simp [List.any_eq_true]
  · unfold is_safe_code firstMatchedPattern
    simp [Option.isSome_map', List.find?_isSome, List.any_eq_true]

/-- C2 witness: a concrete rejected code string takes the gate branch. -/
theorem C2_reject_iff_pattern_witness :
    execute_pandas_code "pickle" df0 idRun =
      ((none, some "Generated code contains unsafe operations"), df0) :=
  (C2_reject_iff_pattern "pickle").2.2 (by decide) df0 idRun

/-- C2 counterexample: two codes rejected by different first patterns both
surface the same fixed reason, which differs from the matched patterns, so
the first matching pattern is not reported as the rejection reason. -/
theorem C2_reason_not_pattern :
    is_safe_code "open(x)" = false ∧
    is_safe_code "pickle" = false ∧
    firstMatchedPattern "open(x)" = some "open\\s*\\(" ∧
    firstMatchedPattern "pickle" = some "pickle" ∧
    (execute_pandas_code "open(x)" df0 idRun).1.2 =
      some "Generated code contains unsafe operations" ∧
    (execute_pandas_code "pickle" df0 idRun).1.2 =
      some "Generated code contains unsafe operations" ∧
    some "Generated code contains unsafe operations" ≠ some "open\\s*\\(" := by decide

/-- C3 counterexample: with the remote generator configured, an empty
response content or a response missing the code field is surfaced as a
generation error — the coordinator returns no expression and does not fall
back to the local translator. -/
theorem C3_surfaced_failure :
    generate_pandas_code "total sales" ["date", "region", "sales"] true
        RemoteBehavior.contentEmpty =
      (none, some "OpenAI response content is empty") ∧
    generate_pandas_code "total sales" ["date", "region", "sales"] true
        RemoteBehavior.missingCodeField =
      (none, some "OpenAI response does not contain \x27code\x27 field") ∧
    (parse_query_locally "total sales" ["date", "region", "sales"]).1 =
      "result = df[\"sales\"].sum()" ∧
    (generate_pandas_code "total sales" ["date", "region", "sales"] true
        RemoteBehavior.contentEmpty).1 = none := by decide

/-- C3 (amended): only exceptions raised inside the try block — a transport
error of the remote call or malformed JSON content — fall back to the local
translator; an unconfigured client always uses it; a successful remote
response is returned directly without validation. -/
theorem C3_fallback_cases (q : String) (cols : List String) (r : RemoteBehavior)
    (h : r = RemoteBehavior.transportError ∨ r = RemoteBehavior.malformedJSON) :
    generate_pandas_code q cols true r = (some (parse_query_locally q cols).1, none) ∧
    (∀ r2 : RemoteBehavior, generate_pandas_code q cols false r2 =
      (some (parse_query_locally q cols).1, none)) ∧
    (∀ c : String, generate_pandas_code q cols true (RemoteBehavior.codeField c) =
      (some c, none)) := by
  refine ⟨?_, ?_, fun c => rfl⟩
  · rcases h with h | h <;> subst h <;>
      simp [generate_pandas_code, parse_query_locally_snd]
  · intro r2
    simp [generate_pandas_code, parse_query_locally_snd]

/-- C3 witness: a transport error at a concrete query falls back to the
local default expression. -/
theorem C3_fallback_cases_witness :
    generate_pandas_code "xyz" [] true RemoteBehavior.transportError =
      (some "result = df.head(10)", none) := by
  rw [(C3_fallback_cases "xyz" [] RemoteBehavior.transportError (Or.inl rfl)).1]
  decide

/-- C4 counterexample: a query containing the literal substring open( does
not end in a validation failure — the local translator never copies query
text into the expression, so the query "open(" yields the default preview
expression, which is accepted and executed to a successful Table outcome. -/
theorem C4_query_not_validated :
    parse_query_locally "open(" ["date", "region", "sales"] =
      ("result = df.head(10)", none) ∧
    generate_pandas_code "open(" ["date", "region", "sales"] false
        RemoteBehavior.transportError = (some "result = df.head(10)", none) ∧
    is_safe_code "result = df.head(10)" = true ∧
    execute_pandas_code "result = df.head(10)" df0 headRun =
      ((some (Outcome.table
        [[("date", Cell.cStr "2023-07-01"), ("region", Cell.cStr "East"),
          ("sales", Cell.cInt 100)],
         [("date", Cell.cStr "2023-01-15"), ("region", Cell.cStr "West"),
          ("sales", Cell.cInt 50)]] ["date", "region", "sales"]), none), df0) := by decide

/-- C4 (amended): every candidate expression containing the literal
substring open( is rejected by the validator, and the executor returns the
validation error without running it, whatever the exec behavior — the
guarantee holds of the generated expression, not of the query text. -/
theorem C4_expression_with_open_rejected (code : String)
    (h : matchSub ("open(".data) code.data = true) :
    is_safe_code code = false ∧
    ∀ (df : DataFrame) (run : NS → DataFrame → ExecRun),
      execute_pandas_code code df run =
        ((none, some "Generated code contains unsafe operations"), df) := by
  have hf := is_safe_code_false_of_openParen code h
  exact ⟨hf, fun df run => execute_unsafe_gate code hf df run⟩

/-- C4 witness: a concrete expression containing open( is rejected and the
executor never runs it. -/
theorem C4_expression_with_open_rejected_witness :
    is_safe_code "result = open(\"f\")" = false ∧
    execute_pandas_code "result = open(\"f\")" df0 idRun =
      ((none, some "Generated code contains unsafe operations"), df0) := by
  have h := C4_expression_with_open_rejected "result = open(\"f\")" (by decide)
  exact ⟨h.1, h.2 df0 idRun⟩

/-- C5 counterexample: the query "total sales by" fully matches exactly one
catalog entry (keywords total+sales) yet the translator returns the code of
the first entry (sales/by/region), which attains the same keyword count of
two earlier in the catalog. -/
theorem C5_full_match_loses :
    patterns.countP
      (fun p => fullKeywordMatch p (queryLower "total sales by")) = 1 ∧
    fullKeywordMatch
      ⟨["total", "sales"], "result = df[\"sales\"].sum()", "Total sales"⟩
      (queryLower "total sales by") = true ∧
    (⟨["total", "sales"], "result = df[\"sales\"].sum()", "Total sales"⟩ : QPattern)
      ∈ patterns ∧
    parse_query_locally "total sales by" ["date", "region", "sales"] =
      ("result = df.groupby(\"region\")[\"sales\"].sum().reset_index()", none) ∧
    "result = df.groupby(\"region\")[\"sales\"].sum().reset_index()" ≠
      "result = df[\"sales\"].sum()" := by decide

/-- C5 (amended): a query that fully matches exactly one catalog entry
receives that entry's code provided the entry's keyword count strictly
exceeds the count of every earlier entry and is at least the count of every
later entry (the loop keeps the first entry attaining the maximal positive
count). -/
theorem C5_unique_full_match (q : String) (cols : List String)
    (i : Nat) (hi : i < patterns.length)
    (hfull : fullKeywordMatch (patterns.get ⟨i, hi⟩) (queryLower q) = true)
    (huniq : patterns.countP (fun p => fullKeywordMatch p (queryLower q)) = 1)
    (hlt : ∀ p ∈ patterns.take i,
      cntOf (queryLower q) p < cntOf (queryLower q) (patterns.get ⟨i, hi⟩))
    (hge : ∀ p ∈ patterns.drop (i + 1),
      cntOf (queryLower q) p ≤ cntOf (queryLower q) (patterns.get ⟨i, hi⟩)) :
    parse_query_locally q cols = ((patterns.get ⟨i, hi⟩).code, none) := by
  have hne : (patterns.get ⟨i, hi⟩).keywords ≠ [] := by
    have hall : ∀ p ∈ patterns, p.keywords ≠ [] := by decide
    exact hall _ (List.get_mem patterns i hi)
  have he : 0 < cntOf (queryLower q) (patterns.get ⟨i, hi⟩) := by
    unfold cntOf
    unfold fullKeywordMatch at hfull
    rw [List.all_eq_true] at hfull
    rw [List.countP_eq_length.mpr hfull]
    exact List.length_pos.mpr hne
  have hsplit : patterns =
      patterns.take i ++ patterns.get ⟨i, hi⟩ :: patterns.drop (i + 1) := by
    rw [List.get_eq_getElem, List.getElem_cons_drop, List.take_append_drop]
  have hsel : ((patterns).foldl (selStep (queryLower q)) (none, 0)).1 =
      some (patterns.get ⟨i, hi⟩) := by
    conv_lhs => rw [hsplit]
    exact foldl_selStep_picks (queryLower q) _ _ _ hlt he hge
  unfold parse_query_locally
  rw [hsel]

/-- C5 witness: the query "sales by region" fully matches exactly the first
catalog entry and dominates all later counts, so it receives that entry's
code. -/
theorem C5_unique_full_match_witness :
    parse_query_locally "sales by region" ["date", "region", "sales"] =
      ((patterns.get ⟨0, by decide⟩).code, none) :=
  C5_unique_full_match "sales by region" ["date", "region", "sales"] 0 (by decide)
    (by decide) (by decide) (by decide) (by decide)

/-- C6: the local translator is total — it always returns an expression and
no error, the expression being the default preview or some catalog entry's
code — and a query containing no keyword of any entry receives exactly the
default preview expression. -/
theorem C6_total_and_default (q : String) (cols : List String) :
    ((parse_query_locally q cols).2 = none ∧
     ((parse_query_locally q cols).1 = "result = df.head(10)" ∨
      ∃ p ∈ patterns, (parse_query_locally q cols).1 = p.code)) ∧
    ((∀ p ∈ patterns, ∀ k ∈ p.keywords,
        matchSub k.data (queryLower q) = false) →
      parse_query_locally q cols = ("result = df.head(10)", none)) := by
  refine ⟨⟨parse_query_locally_snd q cols, ?_⟩, ?_⟩
  · rcases foldl_selStep_mem (queryLower q) patterns (none, 0) with h | ⟨p, hp, h⟩
    · left
      unfold parse_query_locally
      rw [h]
    · right
      refine ⟨p, hp, ?_⟩
      unfold parse_query_locally
      rw [h]
  · intro hz
    have hc : ∀ p ∈ patterns, cntOf (queryLower q) p ≤ 0 := by
      intro p hp
      have hz2 : cntOf (queryLower q) p = 0 := by
        unfold cntOf
        rw [List.countP_eq_zero]
        intro k hk
        simp [hz p hp k hk]
      omega
    unfold parse_query_locally
    rw [foldl_selStep_const (queryLower q) patterns none 0 hc]

/-- C6 witness: the query "hello" contains no catalog keyword and receives
the default preview expression. -/
theorem C6_total_and_default_witness :
    parse_query_locally "hello" [] = ("result = df.head(10)", none) :=
  (C6_total_and_default "hello" []).2 (by decide)

/-- C7: an accepted expression whose execution binds result to a DataFrame
yields a Table outcome whose records list has exactly one entry per row of
the value and whose column list equals the value's columns in order; and the
classification maps each result shape to exactly one variant (Series to the
series variant, int/float/str/bool to scalars, anything else to text). -/
theorem C7_dataframe_table (code : String) (df : DataFrame)
    (run : NS → DataFrame → ExecRun) (cols : List String)
    (rows : List (List Cell)) (ns : NS) (dfA : DataFrame)
    (hsafe : is_safe_code code = true)
    (hrun : run (pythonExecGlobals (initialNamespace df)) df = ExecRun.ok ns dfA)
    (hres : List.lookup "result" ns = some (PandasValue.dataFrame cols rows)) :
    execute_pandas_code code df run =
      ((some (Outcome.table (rows.map (fun r => cols.zip r)) cols), none), dfA) ∧
    (rows.map (fun r => cols.zip r)).length = rows.length ∧
    (∀ nm es, classify_result (PandasValue.series nm es) = Outcome.seriesOut es nm) ∧
    (∀ n, classify_result (PandasValue.int n) = Outcome.scalar (Cell.cInt n)) ∧
    (∀ s, classify_result (PandasValue.str s) = Outcome.scalar (Cell.cStr s)) ∧
    (∀ b, classify_result (PandasValue.bool b) = Outcome.scalar (Cell.cBool b)) ∧
    (∀ l, classify_result (PandasValue.float l) = Outcome.scalar (Cell.cFloat l)) ∧
    (∀ nm, classify_result (PandasValue.module nm) =
      Outcome.otherOut (pyStr (PandasValue.module nm))) := by
  refine ⟨?_, List.length_map _ _, fun nm es => rfl, fun n => rfl, fun s => rfl,
    fun b => rfl, fun l => rfl, fun nm => rfl⟩
  unfold execute_pandas_code
  rw [if_neg (by simp [hsafe])]
  simp only [hrun, hres]
  rfl

/-- C7 witness: the program  result = df  on the two-row dataset yields the
two-record table with the dataset's columns. -/
theorem C7_dataframe_table_witness :
    execute_pandas_code "result = df" df0 dfIdentityRun =
      ((some (Outcome.table (df0.rows.map (fun r => df0.columns.zip r))
        df0.columns), none), df0) ∧
    (df0.rows.map (fun r => df0.columns.zip r)).length = df0.rows.length := by
  have h := C7_dataframe_table "result = df" df0 dfIdentityRun df0.columns df0.rows
    (pythonExecGlobals (initialNamespace df0) ++
      [("result", PandasValue.dataFrame df0.columns df0.rows)])
    df0 (by decide) rfl (by decide)
  exact ⟨h.1, h.2.1⟩

/-- C8: an accepted expression whose execution completes without raising and
leaves no binding named result makes the executor return the distinct
missing-result error with no result payload, never a success outcome. -/
theorem C8_missing_result (code : String) (df : DataFrame)
    (run : NS → DataFrame → ExecRun) (ns : NS) (dfA : DataFrame)
    (hsafe : is_safe_code code = true)
    (hrun : run (pythonExecGlobals (initialNamespace df)) df = ExecRun.ok ns dfA)
    (hres : List.lookup "result" ns = none) :
    execute_pandas_code code df run =
      ((none, some "Generated code did not produce a \x27result\x27 variable"), dfA) ∧
    (execute_pandas_code code df run).1.1 = none := by
  have h : execute_pandas_code code df run =
      ((none, some "Generated code did not produce a \x27result\x27 variable"), dfA) := by
    unfold execute_pandas_code
    rw [if_neg (by simp [hsafe])]
    simp only [hrun, hres]
  exact ⟨h, by rw [h]⟩

/-- C8 witness: the program  x = 1  binds no result and yields the
missing-result error. -/
theorem C8_missing_result_witness :
    execute_pandas_code "x = 1" df0 assignXRun =
      ((none, some "Generated code did not produce a \x27result\x27 variable"), df0) :=
  (C8_missing_result "x = 1" df0 assignXRun
    (pythonExecGlobals (initialNamespace df0) ++ [("x", PandasValue.int 1)]) df0
    (by decide) rfl (by decide)).1

/-- C9 counterexample: the accepted two-statement program that increments the
sales column in place and returns the dataset leaves a mutated dataset
behind, and a second execution yields a different outcome — execution is not
idempotent and the dataset is not preserved. -/
theorem C9_mutation_breaks_idempotence :
    is_safe_code mutProg = true ∧
    (execute_pandas_code mutProg df0 mutRun).2 ≠ df0 ∧
    (execute_pandas_code mutProg df0 mutRun).1 ≠
      (execute_pandas_code mutProg
        ((execute_pandas_code mutProg df0 mutRun).2) mutRun).1 := by decide

/-- C9 (amended): the executor itself never mutates the dataset — for every
accepted expression whose execution leaves the dataset object unchanged,
the dataset observable after the call equals the dataset before it, and
executing the expression twice in succession yields identical outcomes; the
binding discipline alone does not prevent an expression from mutating the
dataset in place. -/
theorem C9_pure_idempotent (code : String) (df : DataFrame)
    (run : NS → DataFrame → ExecRun)
    (hpure : ∀ ns d, dfAfterOf (run ns d) = d) :
    (execute_pandas_code code df run).2 = df ∧
    (execute_pandas_code code df run).1 =
      (execute_pandas_code code ((execute_pandas_code code df run).2) run).1 := by
  have h2 : (execute_pandas_code code df run).2 = df := by
    unfold execute_pandas_code
    by_cases hs : is_safe_code code = false
    · rw [if_pos hs]
    · rw [if_neg hs]
      have hp := hpure (pythonExecGlobals (initialNamespace df)) df
      cases hr : run (pythonExecGlobals (initialNamespace df)) df with
      | ok ns dfA =>
        rw [hr] at hp
        simp only [dfAfterOf] at hp
        cases hl : List.lookup "result" ns <;> simp [hl, hp]
      | raises msg dfA =>
        rw [hr] at hp
        simp only [dfAfterOf] at hp
        simp [hp]
  refine ⟨h2, ?_⟩
  rw [h2]

/-- C9 witness: the non-mutating program  result = df  preserves the dataset
and is idempotent. -/
theorem C9_pure_idempotent_witness :
    (execute_pandas_code "result = df" df0 dfIdentityRun).2 = df0 ∧
    (execute_pandas_code "result = df" df0 dfIdentityRun).1 =
      (execute_pandas_code "result = df"
        ((execute_pandas_code "result = df" df0 dfIdentityRun).2) dfIdentityRun).1 :=
  C9_pure_idempotent "result = df" df0 dfIdentityRun (fun ns d => rfl)

/-- C10: the import check is a negative lookahead on the first module name
only, so  import numpy, os  and an import of a module whose name merely
begins with an allow-listed one pass is_safe_code, and such code is handed
to the executor (reaching the missing-result error, not the validation
error). -/
theorem C10_import_denylist_bypass :
    is_safe_code "import numpy, os" = true ∧
    is_safe_code "import pandasql" = true ∧
    is_safe_code "import os" = false ∧
    execute_pandas_code "import numpy, os" df0 importOsRun =
      ((none, some "Generated code did not produce a \x27result\x27 variable"), df0) := by
  decide

end DataQuery
